import Mathlib

/-!
Shallow embedding of `src/main.py` (Perplexica search dashboard).

The source consists of a cached fetch helper `search_perplexica`
(decorated `@st.cache_data(ttl=300)`), a YouTube-id extractor
`extract_youtube_id`, and a request-handling pass that calls the fetch
helper once per mode (web / images / videos), each call wrapped in its
own try/except.

The network is modelled as an oracle `Net : Request → HttpOutcome`;
JSON values as an inductive `Json`; the Streamlit `cache_data` store as
an association list from `(query, mode)` to `(storedAt, value)`.
-/

/-- JSON values, as returned by `resp.json()`. -/
inductive Json where
  | null
  | str (s : String)
  | num (n : Int)
  | arr (elems : List Json)
  | obj (fields : List (String × Json))


/-- `PERPLEXICA_BASE = "http://localhost:3000/api"` (main.py line 7). -/
def PERPLEXICA_BASE : String := "http://localhost:3000/api"

/-- The `ENDPOINTS` dict (main.py lines 8–12); `ENDPOINTS.get(mode)`
returns `none` for an unknown mode. -/
def ENDPOINTS (mode : String) : Option String :=
  if mode = "web" then some (PERPLEXICA_BASE ++ "/search")
  else if mode = "images" then some (PERPLEXICA_BASE ++ "/images")
  else if mode = "videos" then some (PERPLEXICA_BASE ++ "/videos")
  else none

/-- A mode is valid iff the `ENDPOINTS` dict has an entry for it. -/
def validMode (mode : String) : Bool := (ENDPOINTS mode).isSome

/-- The `chatModel` sub-object of the images/videos payload
(main.py line 32). -/
def chatModelJson : Json :=
  .obj [("provider", .str "gemini"), ("model", .str "gemini-2.5-flash-preview-05-20")]

/-- The request payload built by `search_perplexica` (main.py lines
26–34): starts as `{"query": query}`, then for `"web"` adds
`focusMode`/`optimizationMode`, and for any other (already validated)
mode adds `chatModel`/`chatHistory`. Insertion order of the Python dict
is preserved in the association list. -/
def buildPayload (query mode : String) : List (String × Json) :=
  if mode = "web" then
    [("query", .str query), ("focusMode", .str "webSearch"),
     ("optimizationMode", .str "speed")]
  else
    [("query", .str query), ("chatModel", chatModelJson), ("chatHistory", .arr [])]

/-- One HTTP POST as issued by `requests.post(url, json=payload, timeout=60)`. -/
structure Request where
  url : String
  payload : List (String × Json)
  timeoutSecs : Nat


/-- Outcome of a POST: a connection/timeout failure, or a response with a
status code and a body that either decodes as JSON (`some`) or not
(`none`, making `resp.json()` raise). -/
inductive HttpOutcome where
  | netError
  | response (status : Nat) (body : Option Json)

/-- The network oracle: what the upstream server does with each request. -/
def Net := Request → HttpOutcome

/-- Errors `search_perplexica` can raise: `ValueError` for an unknown
mode (main.py line 24), `requests` errors for a network failure or an
error HTTP status (`raise_for_status`, line 37, carries the status), and
a JSON decode failure from `resp.json()` (line 38). -/
inductive FetchError where
  | invalidMode (mode : String)
  | requestFailed (status : Option Nat)
  | decodeError


/-- `Response.raise_for_status` raises `HTTPError` exactly for status
codes in 400–599. -/
def isErrorStatus (status : Nat) : Bool :=
  decide (400 ≤ status) && decide (status < 600)

/-- Result of one un-cached invocation of `search_perplexica`,
together with the list of HTTP requests it issued. -/
structure FetchAttempt where
  result : Except FetchError Json
  requests : List Request


/-- The body of `search_perplexica` (main.py lines 21–38), without the
cache decorator: resolve the endpoint (raising `ValueError` before any
network activity when unknown), build the payload, POST with a
60-second timeout, `raise_for_status`, return `resp.json()`. -/
def search_perplexica (net : Net) (query mode : String) : FetchAttempt :=
  match ENDPOINTS mode with
  | none => ⟨.error (.invalidMode mode), []⟩
  | some url =>
    match net ⟨url, buildPayload query mode, 60⟩ with
    | .netError =>
      ⟨.error (.requestFailed none), [⟨url, buildPayload query mode, 60⟩]⟩
    | .response status body =>
      if isErrorStatus status then
        ⟨.error (.requestFailed (some status)), [⟨url, buildPayload query mode, 60⟩]⟩
      else
        match body with
        | none => ⟨.error .decodeError, [⟨url, buildPayload query mode, 60⟩]⟩
        | some j => ⟨.ok j, [⟨url, buildPayload query mode, 60⟩]⟩

/-- A cache entry of `@st.cache_data(ttl=300)`: the stored value and the
time it was stored. -/
structure CacheEntry where
  storedAt : Nat
  value : Json


/-- The process-local cache: one entry per `(query, mode)` pair. -/
def CacheState := List ((String × String) × CacheEntry)

/-- Look up the newest entry for `(query, mode)`. -/
def lookupCache : CacheState → String → String → Option CacheEntry
  | [], _, _ => none
  | ((q', m'), e) :: rest, q, m =>
    if q' = q && m' = m then some e else lookupCache rest q m

/-- Store a value for `(query, mode)`; the new entry shadows any older one. -/
def insertCache (st : CacheState) (q m : String) (e : CacheEntry) : CacheState :=
  ((q, m), e) :: st

/-- The cache TTL: `@st.cache_data(ttl=300)` (main.py line 20). -/
def CACHE_TTL : Nat := 300

/-- Result of one call through the cache decorator: the value or error,
the cache state afterwards, and the HTTP requests issued by the call. -/
structure CachedCall where
  result : Except FetchError Json
  state : CacheState
  requests : List Request

/-- The cache decorator's storage step: on success store the value at the
current time; an exception propagates and is never cached. -/
def storeResult (now : Nat) (st : CacheState) (query mode : String) :
    FetchAttempt → CachedCall
  | ⟨.ok v, reqs⟩ => ⟨.ok v, insertCache st query mode ⟨now, v⟩, reqs⟩
  | ⟨.error e, reqs⟩ => ⟨.error e, st, reqs⟩

/-- Run the wrapped function and apply the storage step. -/
def fetchAndStore (net : Net) (now : Nat) (st : CacheState)
    (query mode : String) : CachedCall :=
  storeResult now st query mode (search_perplexica net query mode)

/-- `search_perplexica` as called through `@st.cache_data(ttl=300)`:
a stored entry younger than the TTL is returned without running the
function; a missing or expired entry runs the function. -/
def cachedSearch (net : Net) (now : Nat) (st : CacheState)
    (query mode : String) : CachedCall :=
  match lookupCache st query mode with
  | some entry =>
    if now < entry.storedAt + CACHE_TTL then ⟨.ok entry.value, st, []⟩
    else fetchAndStore net now st query mode
  | none => fetchAndStore net now st query mode

example :
    (cachedSearch (fun _ => .response 200 (some (.obj []))) 0 [] "q" "web").result
      = .ok (.obj []) := rfl

/-- Characters excluded by the regex character class `[^?&]`. -/
def allowedChar (c : Char) : Bool := c ≠ '?' && c ≠ '&'

/-- The greedy capture `([^?&]+)` starting at this position: the maximal
run of characters not in `{?, &}`. -/
def captureRun : List Char → List Char
  | [] => []
  | c :: cs => if allowedChar c then c :: captureRun cs else []

/-- Try to match the pattern `lit([^?&]+)` at the start of `s`: `s` must
start with the literal `lit` and at least one allowed character must
follow. -/
def matchHere (lit s : List Char) : Option (List Char) :=
  if lit.isPrefixOf s then
    match s.drop lit.length with
    | [] => none
    | c :: cs => if allowedChar c then some (captureRun (c :: cs)) else none
  else none

/-- `re.search` for a pattern of shape `lit([^?&]+)`: try every start
position left to right and return the leftmost match's capture group. -/
def searchCapture (lit : List Char) : List Char → Option (List Char)
  | [] => none
  | c :: cs =>
    match matchHere lit (c :: cs) with
    | some r => some r
    | none => searchCapture lit cs

/-- `extract_youtube_id` (main.py lines 49–53): try the two patterns
`youtu\.be/([^?&]+)` and `youtube\.com/watch\?v=([^?&]+)` in order,
returning the first capture group, else `None`. -/
def extract_youtube_id (url : String) : Option String :=
  match searchCapture "youtu.be/".toList url.toList with
  | some r => some (String.mk r)
  | none =>
    match searchCapture "youtube.com/watch?v=".toList url.toList with
    | some r => some (String.mk r)
    | none => none

/-- Association lookup in a JSON object, as `dict.get` does. -/
def lookupField : List (String × Json) → String → Option Json
  | [], _ => none
  | (k', v) :: rest, k => if k' = k then some v else lookupField rest k

/-- `search_perplexica(query, mode).get(key, [])` as wrapped by the
handler's bare `except`: an exception from the fetch, or `.get` on a
non-dict result, yields `[]`; a missing key yields the default `[]`. -/
def tryGetList (r : Except FetchError Json) (key : String) : Json :=
  match r with
  | .error _ => .arr []
  | .ok (.obj fs) =>
    match lookupField fs key with
    | some v => v
    | none => .arr []
  | .ok _ => .arr []

/-- What the request-handling pass leaves for the tabs to render:
`web_result` (possibly `None`), the errors shown via `st.error` (only
the web branch shows one), and the `imgs` / `vids` lists. -/
structure ViewState where
  web_result : Option Json
  shownErrors : List FetchError
  imgs : Json
  vids : Json

/-- Full outcome of one request-handling pass: the view, the cache state
afterwards, which modes were fetched (in order), and all HTTP requests
issued. -/
structure HandlerOut where
  view : ViewState
  state : CacheState
  attempted : List String
  requests : List Request

/-- The `search_button` handler body (main.py lines 55–71): three
sequential cached fetches, each in its own try/except — a web failure is
shown via `st.error` and leaves `web_result = None`; an images or videos
failure is silently discarded, leaving an empty list. -/
def runHandler (net : Net) (now : Nat) (st : CacheState) (query : String) :
    HandlerOut :=
  let r1 := cachedSearch net now st query "web"
  let web_result := match r1.result with
    | .ok v => some v
    | .error _ => none
  let errs := match r1.result with
    | .ok _ => []
    | .error e => [e]
  let r2 := cachedSearch net now r1.state query "images"
  let imgs := tryGetList r2.result "images"
  let r3 := cachedSearch net now r2.state query "videos"
  let vids := tryGetList r3.result "videos"
  ⟨⟨web_result, errs, imgs, vids⟩, r3.state, ["web", "images", "videos"],
   r1.requests ++ r2.requests ++ r3.requests⟩

/-- Python truthiness of a string: non-empty. -/
def pyTruthyStr (s : String) : Bool := s ≠ ""

/-- The submit path (main.py line 55): `if search_button and query:` —
the handler runs only when the button was pressed and the query is
truthy (non-empty); otherwise no fetch happens at all. -/
def submit (net : Net) (now : Nat) (st : CacheState)
    (search_button : Bool) (query : String) : Option HandlerOut :=
  if search_button && pyTruthyStr query then some (runHandler net now st query)
  else none

/-! ### Helper lemmas -/

theorem search_invalid (net : Net) (query mode : String)
    (h : ENDPOINTS mode = none) :
    search_perplexica net query mode = ⟨.error (.invalidMode mode), []⟩ := by
  unfold search_perplexica
  rw [h]

theorem search_requests_of_endpoint (net : Net) (query mode url : String)
    (h : ENDPOINTS mode = some url) :
    (search_perplexica net query mode).requests
      = [⟨url, buildPayload query mode, 60⟩] := by
  simp only [search_perplexica, h]
  cases net ⟨url, buildPayload query mode, 60⟩ with
  | netError => rfl
  | response status body =>
    cases body <;> by_cases hs : isErrorStatus status = true <;> simp [hs]

theorem search_requests_length_le_one (net : Net) (query mode : String) :
    (search_perplexica net query mode).requests.length ≤ 1 := by
  cases h : ENDPOINTS mode with
  | none => rw [search_invalid net query mode h]; simp
  | some url => rw [search_requests_of_endpoint net query mode url h]; simp

theorem lookup_insert (st : CacheState) (q m : String) (e : CacheEntry) :
    lookupCache (insertCache st q m e) q m = some e := by
  simp [insertCache, lookupCache]

theorem storeResult_result (now : Nat) (st : CacheState) (query mode : String)
    (att : FetchAttempt) :
    (storeResult now st query mode att).result = att.result := by
  cases att with
  | mk res reqs => cases res <;> rfl

theorem storeResult_requests (now : Nat) (st : CacheState) (query mode : String)
    (att : FetchAttempt) :
    (storeResult now st query mode att).requests = att.requests := by
  cases att with
  | mk res reqs => cases res <;> rfl

theorem fetchAndStore_result (net : Net) (now : Nat) (st : CacheState)
    (query mode : String) :
    (fetchAndStore net now st query mode).result
      = (search_perplexica net query mode).result :=
  storeResult_result now st query mode (search_perplexica net query mode)

theorem fetchAndStore_requests (net : Net) (now : Nat) (st : CacheState)
    (query mode : String) :
    (fetchAndStore net now st query mode).requests
      = (search_perplexica net query mode).requests :=
  storeResult_requests now st query mode (search_perplexica net query mode)

theorem fetchAndStore_ok (net : Net) (now : Nat) (st : CacheState)
    (query mode : String) (v : Json)
    (h : (search_perplexica net query mode).result = .ok v) :
    fetchAndStore net now st query mode
      = ⟨.ok v, insertCache st query mode ⟨now, v⟩,
         (search_perplexica net query mode).requests⟩ := by
  unfold fetchAndStore
  cases hatt : search_perplexica net query mode with
  | mk res reqs =>
    rw [hatt] at h
    change res = Except.ok v at h
    subst h
    rfl

theorem cachedSearch_miss (net : Net) (now : Nat) (st : CacheState)
    (query mode : String) (hmiss : lookupCache st query mode = none) :
    cachedSearch net now st query mode = fetchAndStore net now st query mode := by
  unfold cachedSearch
  rw [hmiss]

theorem cachedSearch_hit (net : Net) (now : Nat) (st : CacheState)
    (query mode : String) (e : CacheEntry)
    (hlook : lookupCache st query mode = some e)
    (hfresh : now < e.storedAt + CACHE_TTL) :
    cachedSearch net now st query mode = ⟨.ok e.value, st, []⟩ := by
  unfold cachedSearch
  rw [hlook]
  simp [hfresh]

theorem cachedSearch_expired (net : Net) (now : Nat) (st : CacheState)
    (query mode : String) (e : CacheEntry)
    (hlook : lookupCache st query mode = some e)
    (hexp : e.storedAt + CACHE_TTL ≤ now) :
    cachedSearch net now st query mode = fetchAndStore net now st query mode := by
  unfold cachedSearch
  rw [hlook]
  simp [Nat.not_lt_of_le hexp]

/-! ### Concrete network oracles used as witnesses -/

/-- A server that always answers 200 with the JSON body `{}`. -/
def okNet : Net := fun _ => .response 200 (some (.obj []))

/-- A server that is unreachable: every POST fails at the network level. -/
def failNet : Net := fun _ => .netError

/-- A server that always answers 404 with a non-JSON body. -/
def errNet : Net := fun _ => .response 404 none

/-! ### Claims -/

/-- C1: for every valid `(query, mode)` pair, calling the fetch-and-cache
client twice with the identical `(query, mode)` within the 300-second TTL
window performs at most one network call: the second call returns the
cached result of the first successful fetch. -/
theorem C1_second_call_hits_cache (net : Net) (query mode : String)
    (t₁ t₂ : Nat) (st : CacheState) (v : Json)
    (hmiss : lookupCache st query mode = none)
    (h1 : (cachedSearch net t₁ st query mode).result = .ok v)
    (hwin : t₂ < t₁ + CACHE_TTL) :
    (cachedSearch net t₂ (cachedSearch net t₁ st query mode).state query mode).result
        = .ok v ∧
    (cachedSearch net t₂ (cachedSearch net t₁ st query mode).state query mode).requests
        = [] ∧
    ((cachedSearch net t₁ st query mode).requests ++
     (cachedSearch net t₂ (cachedSearch net t₁ st query mode).state query mode).requests).length
        ≤ 1 := by
  rw [cachedSearch_miss net t₁ st query mode hmiss] at h1 ⊢
  rw [fetchAndStore_result] at h1
  rw [fetchAndStore_ok net t₁ st query mode v h1]
  have hsecond :
      cachedSearch net t₂ (insertCache st query mode ⟨t₁, v⟩) query mode
        = ⟨.ok v, insertCache st query mode ⟨t₁, v⟩, []⟩ :=
    cachedSearch_hit net t₂ _ query mode ⟨t₁, v⟩
      (lookup_insert st query mode ⟨t₁, v⟩) hwin
  refine ⟨?_, ?_, ?_⟩
  · rw [hsecond]
  · rw [hsecond]
  · rw [hsecond]
    simpa using search_requests_length_le_one net query mode

/-- C1 witness: a concrete run against `okNet` — the second call at time
100 returns the value cached at time 0 and issues no request. -/
theorem C1_witness :
    (cachedSearch okNet 100 (cachedSearch okNet 0 [] "q" "web").state "q" "web").result
        = .ok (.obj []) ∧
    (cachedSearch okNet 100 (cachedSearch okNet 0 [] "q" "web").state "q" "web").requests
        = [] ∧
    ((cachedSearch okNet 0 [] "q" "web").requests ++
     (cachedSearch okNet 100 (cachedSearch okNet 0 [] "q" "web").state "q" "web").requests).length
        ≤ 1 :=
  C1_second_call_hits_cache okNet "q" "web" 0 100 [] (.obj []) rfl rfl (by decide)

/-- C2: for every query and every mode outside `{web, images, videos}`,
the client fails with the unknown-mode error, issues no network call, and
leaves the cache untouched. -/
theorem C2_unknown_mode_fails_fast (net : Net) (query mode : String)
    (now : Nat) (st : CacheState)
    (hmode : mode ≠ "web" ∧ mode ≠ "images" ∧ mode ≠ "videos")
    (hmiss : lookupCache st query mode = none) :
    (cachedSearch net now st query mode).result = .error (.invalidMode mode) ∧
    (cachedSearch net now st query mode).requests = [] ∧
    (cachedSearch net now st query mode).state = st := by
  have hend : ENDPOINTS mode = none := by
    unfold ENDPOINTS
    rw [if_neg hmode.1, if_neg hmode.2.1, if_neg hmode.2.2]
  rw [cachedSearch_miss net now st query mode hmiss]
  unfold fetchAndStore
  rw [search_invalid net query mode hend]
  exact ⟨rfl, rfl, rfl⟩

/-- C2 witness: mode `"audio"` fails with `InvalidMode` and no request. -/
theorem C2_witness :
    (cachedSearch okNet 0 [] "q" "audio").result = .error (.invalidMode "audio") ∧
    (cachedSearch okNet 0 [] "q" "audio").requests = [] ∧
    (cachedSearch okNet 0 [] "q" "audio").state = [] :=
  C2_unknown_mode_fails_fast okNet "q" "audio" 0 []
    ⟨by decide, by decide, by decide⟩ rfl

/-- C3: for every valid `(query, mode)` pair, once the TTL has elapsed
since the cached entry was stored, a subsequent call performs a new
network call (exactly one request) and its result comes from the fresh
fetch, regardless of the prior cached value. -/
theorem C3_expired_entry_refetches (net : Net) (query mode : String)
    (now t : Nat) (st : CacheState) (v : Json)
    (hvalid : validMode mode = true)
    (hlook : lookupCache st query mode = some ⟨t, v⟩)
    (hexp : t + CACHE_TTL ≤ now) :
    (cachedSearch net now st query mode).requests.length = 1 ∧
    (cachedSearch net now st query mode).result
      = (search_perplexica net query mode).result := by
  obtain ⟨url, hurl⟩ : ∃ url, ENDPOINTS mode = some url := by
    unfold validMode at hvalid
    exact Option.isSome_iff_exists.mp hvalid
  rw [cachedSearch_expired net now st query mode ⟨t, v⟩ hlook hexp]
  constructor
  · rw [fetchAndStore_requests, search_requests_of_endpoint net query mode url hurl]
    rfl
  · exact fetchAndStore_result net now st query mode

/-- C3 witness: an entry stored at time 0 is expired at time 300, and the
call at time 300 issues exactly one fresh request. -/
theorem C3_witness :
    (cachedSearch okNet 300 [(("q", "web"), ⟨0, .obj []⟩)] "q" "web").requests.length
        = 1 ∧
    (cachedSearch okNet 300 [(("q", "web"), ⟨0, .obj []⟩)] "q" "web").result
        = (search_perplexica okNet "q" "web").result :=
  C3_expired_entry_refetches okNet "q" "web" 300 0
    [(("q", "web"), ⟨0, .obj []⟩)] (.obj []) (by decide) rfl (by decide)

/-- C4: the request payload is a function of the mode — for `web` it is
`{query, focusMode: "webSearch", optimizationMode: "speed"}`, and for
`images` and `videos` it is
`{query, chatModel: {provider, model}, chatHistory: []}`. -/
theorem C4_payload_by_mode (query : String) :
    buildPayload query "web"
      = [("query", .str query), ("focusMode", .str "webSearch"),
         ("optimizationMode", .str "speed")] ∧
    buildPayload query "images"
      = [("query", .str query),
         ("chatModel", .obj [("provider", .str "gemini"),
                             ("model", .str "gemini-2.5-flash-preview-05-20")]),
         ("chatHistory", .arr [])] ∧
    buildPayload query "videos"
      = [("query", .str query),
         ("chatModel", .obj [("provider", .str "gemini"),
                             ("model", .str "gemini-2.5-flash-preview-05-20")]),
         ("chatHistory", .arr [])] :=
  ⟨rfl, rfl, rfl⟩

/-- A server answering 304 (Not Modified, a non-2xx status) with a JSON
body. -/
def notModifiedNet : Net :=
  fun _ => .response 304 (some (.obj [("cached", .str "yes")]))

/-- C5 counterexample: `raise_for_status` only raises for statuses in
400–599, so a 304 response — non-2xx — is returned as a success instead
of failing with `RequestFailed`, refuting the claim as stated. -/
theorem C5_counterexample_304_returned_ok :
    (cachedSearch notModifiedNet 0 [] "q" "web").result
      = .ok (.obj [("cached", .str "yes")]) := rfl

/-- C5 (amended): for every valid `(query, mode)` pair, if the HTTP POST
returns an error status in 400–599, the client fails with `RequestFailed`
carrying the status — it never returns a silently empty result. -/
theorem C5_error_status_fails (net : Net) (query mode url : String)
    (now : Nat) (st : CacheState) (status : Nat) (body : Option Json)
    (hmiss : lookupCache st query mode = none)
    (hurl : ENDPOINTS mode = some url)
    (hnet : net ⟨url, buildPayload query mode, 60⟩ = .response status body)
    (hstatus : 400 ≤ status ∧ status < 600) :
    (cachedSearch net now st query mode).result
      = .error (.requestFailed (some status)) := by
  rw [cachedSearch_miss net now st query mode hmiss, fetchAndStore_result]
  have hs : isErrorStatus status = true := by
    unfold isErrorStatus
    simp [hstatus.1, hstatus.2]
  simp only [search_perplexica, hurl, hnet, hs]
  rfl

/-- C5 witness: a 404 response fails with `RequestFailed 404`. -/
theorem C5_witness :
    (cachedSearch errNet 0 [] "q" "web").result
      = .error (.requestFailed (some 404)) :=
  C5_error_status_fails errNet "q" "web" "http://localhost:3000/api/search"
    0 [] 404 none rfl rfl rfl (by decide)

/-- C6: for every valid `(query, mode)` pair, when the HTTP POST succeeds
(2xx status, JSON body), the client returns the parsed JSON body exactly
as the server sent it. -/
theorem C6_success_returns_body_unmodified (net : Net) (query mode url : String)
    (now : Nat) (st : CacheState) (status : Nat) (j : Json)
    (hmiss : lookupCache st query mode = none)
    (hurl : ENDPOINTS mode = some url)
    (hnet : net ⟨url, buildPayload query mode, 60⟩ = .response status (some j))
    (h2xx : 200 ≤ status ∧ status < 300) :
    (cachedSearch net now st query mode).result = .ok j := by
  rw [cachedSearch_miss net now st query mode hmiss, fetchAndStore_result]
  have hlt : ¬ (400 ≤ status) := by
    have h := h2xx.2
    omega
  have hs : isErrorStatus status = false := by
    unfold isErrorStatus
    simp [hlt]
  simp only [search_perplexica, hurl, hnet, hs]
  rfl

/-- C6 witness: `okNet` answers 200 with `{}` and the client returns
exactly `{}`. -/
theorem C6_witness :
    (cachedSearch okNet 0 [] "q" "images").result = .ok (.obj []) :=
  C6_success_returns_body_unmodified okNet "q" "images"
    "http://localhost:3000/api/images" 0 [] 200 (.obj []) rfl rfl rfl (by decide)

/-- C7: the video-id extractor returns `"XYZ"` for the URL
`https://youtu.be/XYZ` and no match for the URL `https://example.com`. -/
theorem C7_extractor_examples :
    extract_youtube_id "https://youtu.be/XYZ" = some "XYZ" ∧
    extract_youtube_id "https://example.com" = none :=
  ⟨rfl, rfl⟩

/-- C8: a failure of one mode's fetch (here the web fetch raising) does
not abort the request-handling pass — all three modes are still
attempted, in order, and the images and videos components are exactly
those computed from their own fetches. -/
theorem C8_mode_failure_isolated (net : Net) (now : Nat) (st : CacheState)
    (query : String) (e : FetchError)
    (hweb : (cachedSearch net now st query "web").result = .error e) :
    (runHandler net now st query).attempted = ["web", "images", "videos"] ∧
    (runHandler net now st query).view.imgs
      = tryGetList (cachedSearch net now
          (cachedSearch net now st query "web").state query "images").result
          "images" ∧
    (runHandler net now st query).view.vids
      = tryGetList (cachedSearch net now
          (cachedSearch net now
            (cachedSearch net now st query "web").state query "images").state
          query "videos").result "videos" :=
  ⟨rfl, rfl, rfl⟩

/-- C8 witness: against an unreachable server every fetch raises, yet the
pass attempts all three modes and computes each tab from its own fetch. -/
theorem C8_witness :
    (runHandler failNet 0 [] "q").attempted = ["web", "images", "videos"] ∧
    (runHandler failNet 0 [] "q").view.imgs
      = tryGetList (cachedSearch failNet 0
          (cachedSearch failNet 0 [] "q" "web").state "q" "images").result
          "images" ∧
    (runHandler failNet 0 [] "q").view.vids
      = tryGetList (cachedSearch failNet 0
          (cachedSearch failNet 0
            (cachedSearch failNet 0 [] "q" "web").state "q" "images").state
          "q" "videos").result "videos" :=
  C8_mode_failure_isolated failNet 0 [] "q" (.requestFailed none) rfl

/-- C9: error handling is asymmetric across modes — when all three
fetches raise, the web error is surfaced via `st.error` with
`web_result = None`, while the images and videos errors are silently
discarded, each yielding the empty list with no error shown. -/
theorem C9_error_asymmetry (net : Net) (now : Nat) (st : CacheState)
    (query : String) (e₁ e₂ e₃ : FetchError)
    (h1 : (cachedSearch net now st query "web").result = .error e₁)
    (h2 : (cachedSearch net now (cachedSearch net now st query "web").state
            query "images").result = .error e₂)
    (h3 : (cachedSearch net now (cachedSearch net now
            (cachedSearch net now st query "web").state query "images").state
            query "videos").result = .error e₃) :
    (runHandler net now st query).view.web_result = none ∧
    (runHandler net now st query).view.shownErrors = [e₁] ∧
    (runHandler net now st query).view.imgs = .arr [] ∧
    (runHandler net now st query).view.vids = .arr [] := by
  refine ⟨?_, ?_, ?_, ?_⟩ <;> simp only [runHandler, h1, h2, h3, tryGetList]

/-- C9 witness: against an unreachable server the web failure is shown
and `web_result` is `None`, while images and videos are empty lists. -/
theorem C9_witness :
    (runHandler failNet 0 [] "q").view.web_result = none ∧
    (runHandler failNet 0 [] "q").view.shownErrors = [.requestFailed none] ∧
    (runHandler failNet 0 [] "q").view.imgs = .arr [] ∧
    (runHandler failNet 0 [] "q").view.vids = .arr [] :=
  C9_error_asymmetry failNet 0 [] "q"
    (.requestFailed none) (.requestFailed none) (.requestFailed none) rfl rfl rfl

/-- C10: the client does not validate query non-emptiness — with the
empty query and a known mode it raises nothing before the network step
and issues the POST with `query: ""` first in the payload; only the UI
guard `if search_button and query:` stops the empty-query submit. -/
theorem C10_empty_query_not_validated (net : Net) (now : Nat)
    (st : CacheState) (mode url : String)
    (hurl : ENDPOINTS mode = some url)
    (hmiss : lookupCache st "" mode = none) :
    (cachedSearch net now st "" mode).requests
        = [⟨url, buildPayload "" mode, 60⟩] ∧
    (buildPayload "" mode).head? = some ("query", .str "") ∧
    submit net now st true "" = none := by
  refine ⟨?_, ?_, ?_⟩
  · rw [cachedSearch_miss net now st "" mode hmiss, fetchAndStore_requests,
        search_requests_of_endpoint net "" mode url hurl]
  · unfold buildPayload
    split <;> rfl
  · rfl

/-- C10 witness: the empty query reaches the network for mode `web`, with
`query: ""` in the payload, while the submit path does nothing. -/
theorem C10_witness :
    (cachedSearch okNet 0 [] "" "web").requests
        = [⟨"http://localhost:3000/api/search", buildPayload "" "web", 60⟩] ∧
    (buildPayload "" "web").head? = some ("query", .str "") ∧
    submit okNet 0 [] true "" = none :=
  C10_empty_query_not_validated okNet 0 [] "web"
    "http://localhost:3000/api/search" rfl rfl
